import Mathlib

/-!
# TODO-List-Lambda: the `todo` package (`pkg/todo/todo.go`)

A shallow embedding of the five request handlers `ListTodo`, `GetTodo`,
`CreateTodo`, `UpdateTodo` and `DeleteTodo`.

* A Go return pair `(*T, error)` is an `Outcome`: the pointer is an `Option`
  (`none` is `nil`), the error is an `Option String` (`none` is `nil`), and a
  run-time panic (a nil pointer dereference) is the separate outcome `panicked`.
* `dynaClient` is an interface value in the source, so it is a record of
  functions here (`DynamoDBAPI`), over an arbitrary client state `σ`.  Every
  call made through it is appended to a call log kept next to the client state
  (`World`).
* The library functions the handlers call (`json.Unmarshal`,
  `dynamodbattribute.MarshalMap`, `UnmarshalMap`, `UnmarshalListOfMaps`) are the
  fields of `Libs`; the value of `uuid.New().String()` is an argument of
  `CreateTodo`.  `strconv.Atoi` is written out, and so is the identifier that
  `uuid.New().String()` prints from its 16 random bytes (`uuidString`).
* A client answers a call with an error or with an output (the SDK contract: a nil
  error comes with a non-nil output).
* `log.Printf` only writes to the process log and is left out.
-/

namespace TodoLambda

/-! ## Error strings -/

def ErrorFailedToUnmarshalRecord : String := "failed to unmarshal record"
def ErrorFailedToFetchRecord : String := "failed to fetch record"
def ErrorInvalidData : String := "invalid data"
def ErrorCouldNotMarshalItem : String := "could not marshal item"
def ErrorCouldNotDeleteItem : String := "could not delete item"
def ErrorCouldNotDynamoPutItem : String := "could not dynamo put item"
def ErrorDoesNotExist : String := "does not exist"

/-- The seven fixed error strings of the package. -/
def fixedErrors : List String :=
  [ErrorFailedToUnmarshalRecord, ErrorFailedToFetchRecord, ErrorInvalidData,
   ErrorCouldNotMarshalItem, ErrorCouldNotDeleteItem, ErrorCouldNotDynamoPutItem,
   ErrorDoesNotExist]

/-! ## Data model -/

/-- The `Todo` struct.  `State` is a Go `int`; no arithmetic is done on it. -/
structure Todo where
  Id : String
  Item : String
  CreatedBy : String
  State : Int
deriving DecidableEq, Repr

/-- The zero value of `Todo` (what `new(Todo)` points to). -/
def zeroTodo : Todo := { Id := "", Item := "", CreatedBy := "", State := 0 }

/-- The part of `events.APIGatewayProxyRequest` the handlers read. -/
structure APIGatewayProxyRequest where
  QueryStringParameters : List (String × String)
  Body : String
deriving DecidableEq, Repr

/-- Go map indexing `req.QueryStringParameters[k]`: the empty string when the key is absent. -/
def queryParam (req : APIGatewayProxyRequest) (k : String) : String :=
  (req.QueryStringParameters.lookup k).getD ""

/-- Go `len` of a string: its length in bytes. -/
def len (s : String) : Nat := s.utf8ByteSize

/-! ## `strconv.Atoi` (64-bit `int`) -/

/-- The digit loop: every byte must be in `'0'..'9'`. -/
def atoiDigits : List Char → Nat → Option Nat
  | [], acc => some acc
  | ch :: rest, acc =>
    if '0' ≤ ch ∧ ch ≤ '9' then atoiDigits rest (acc * 10 + (ch.toNat - '0'.toNat)) else none

/-- Model of `strconv.Atoi`: an optional sign, at least one decimal digit, and a value
that fits a 64-bit `int`; `none` stands for a non-nil error. -/
def Atoi (s : String) : Option Int :=
  match s.data with
  | [] => none
  | c :: cs =>
    let neg : Bool := c = '-'
    let ds : List Char := if c = '-' ∨ c = '+' then cs else c :: cs
    match ds with
    | [] => none
    | d :: ds1 =>
      match atoiDigits (d :: ds1) 0 with
      | none => none
      | some n =>
        let v : Int := if neg then -(n : Int) else (n : Int)
        if -(2 ^ 63 : Int) ≤ v ∧ v < (2 ^ 63 : Int) then some v else none

/-! ## `uuid.New().String()` -/

/-- One lower-case hexadecimal digit. -/
def hexDigit (d : Nat) : Char :=
  ['0', '1', '2', '3', '4', '5', '6', '7', '8', '9', 'a', 'b', 'c', 'd', 'e', 'f'].getD d '0'

/-- A byte as two hexadecimal digits (`hex.Encode`). -/
def hexByte (b : Nat) : List Char := [hexDigit (b % 256 / 16), hexDigit (b % 16)]

/-- Byte `i` of the identifier made from the random bytes `rnd` (`uuid.NewRandom`):
byte 6 is `(b & 0x0f) | 0x40` (version 4), byte 8 is `(b & 0x3f) | 0x80` (variant 10),
every other byte is the random byte. -/
def uuidByte (rnd : List Nat) (i : Nat) : Nat :=
  let b := rnd.getD i 0 % 256
  if i = 6 then b % 16 + 64
  else if i = 8 then b % 64 + 128
  else b

/-- Model of `uuid.New().String()`, `rnd` being the 16 bytes read from the random source:
the bytes in lower-case hexadecimal, grouped 8-4-4-4-12 and joined by `-`. -/
def uuidString (rnd : List Nat) : String :=
  String.mk
    (hexByte (uuidByte rnd 0) ++ hexByte (uuidByte rnd 1) ++ hexByte (uuidByte rnd 2) ++
     hexByte (uuidByte rnd 3) ++ ['-'] ++
     hexByte (uuidByte rnd 4) ++ hexByte (uuidByte rnd 5) ++ ['-'] ++
     hexByte (uuidByte rnd 6) ++ hexByte (uuidByte rnd 7) ++ ['-'] ++
     hexByte (uuidByte rnd 8) ++ hexByte (uuidByte rnd 9) ++ ['-'] ++
     hexByte (uuidByte rnd 10) ++ hexByte (uuidByte rnd 11) ++ hexByte (uuidByte rnd 12) ++
     hexByte (uuidByte rnd 13) ++ hexByte (uuidByte rnd 14) ++ hexByte (uuidByte rnd 15))

/-! ## The store client interface -/

/-- `dynamodb.GetItemInput` with key `{"id": {S: id}}`. -/
structure GetItemInput where
  Key : String
  TableName : String
deriving DecidableEq, Repr

/-- `dynamodb.PutItemInput`. -/
structure PutItemInput (Item : Type) where
  Item : Item
  TableName : String
deriving DecidableEq, Repr

/-- `dynamodb.DeleteItemInput` with key `{"id": {S: id}}`. -/
structure DeleteItemInput where
  Key : String
  TableName : String
deriving DecidableEq, Repr

/-- `dynamodb.ScanInput` as `ListTodo` builds it: the filter
`createdBy = :v AND state = :w` and the projected attribute names. -/
structure ScanInput where
  TableName : String
  FilterCreatedBy : String
  FilterState : Int
  Projection : List String
deriving DecidableEq, Repr

/-- The four methods of `dynamodbiface.DynamoDBAPI` the package calls.  Each takes the
client state and returns the answer (`Except.error` is a non-nil `error`) with the next state.
`GetItem` answers `none` when the output carries no item. -/
structure DynamoDBAPI (σ Item : Type) where
  GetItem : GetItemInput → σ → Except String (Option Item) × σ
  PutItem : PutItemInput Item → σ → Except String Unit × σ
  DeleteItem : DeleteItemInput → σ → Except String Unit × σ
  Scan : ScanInput → σ → Except String (List Item) × σ

/-- One call made through the client. -/
inductive Call (Item : Type) where
  | GetItem (input : GetItemInput)
  | PutItem (input : PutItemInput Item)
  | DeleteItem (input : DeleteItemInput)
  | Scan (input : ScanInput)
deriving DecidableEq, Repr

/-- The client state together with the log of the calls made so far. -/
structure World (σ Item : Type) where
  store : σ
  calls : List (Call Item)

/-- The library functions used by the handlers. -/
structure Libs (Item : Type) where
  -- `json.Unmarshal([]byte(body), &t)` on a zero `t`; `none` is a non-nil error
  jsonUnmarshal : String → Option Todo
  -- `dynamodbattribute.MarshalMap(t)`; `none` is a non-nil error
  MarshalMap : Todo → Option Item
  -- `dynamodbattribute.UnmarshalMap(result.Item, item)` on a zero `item`; `none` is a non-nil error
  UnmarshalMap : Option Item → Option Todo
  -- `dynamodbattribute.UnmarshalListOfMaps(result.Items, item)`: the slice it leaves and its error
  UnmarshalListOfMaps : List Item → List Todo × Option String

/-- What a handler does: it returns the Go pair `(pointer, error)`, or it panics. -/
inductive Outcome (α : Type) where
  | returned (val : Option α) (err : Option String)
  | panicked
deriving DecidableEq, Repr

/-- The return `&t, nil`. -/
def Outcome.ok {α : Type} (v : α) : Outcome α := .returned (some v) none

/-- The return `nil, errors.New(msg)`. -/
def Outcome.fail {α : Type} (msg : String) : Outcome α := .returned none (some msg)

/-! ## The handlers -/

section Handlers

variable {σ Item : Type}

def ListTodo (L : Libs Item) (req : APIGatewayProxyRequest) (tableName : String)
    (dynaClient : DynamoDBAPI σ Item) (w : World σ Item) :
    Outcome (List Todo) × World σ Item :=
  let createdBy := queryParam req "createdBy"
  -- `state, err := strconv.Atoi(...)`: `state` is 0 when `err` is not nil
  let parsed := Atoi (queryParam req "state")
  let state : Int := parsed.getD 0
  if len createdBy == 0 || parsed.isNone then (Outcome.fail ErrorInvalidData, w)
  else
    let input : ScanInput :=
      { TableName := tableName, FilterCreatedBy := createdBy, FilterState := state,
        Projection := ["id", "item", "createdBy", "state"] }
    match dynaClient.Scan input w.store with
    | (Except.error _, s) =>
      (Outcome.fail ErrorFailedToFetchRecord, ⟨s, w.calls ++ [Call.Scan input]⟩)
    | (Except.ok items, s) =>
      let r := L.UnmarshalListOfMaps items
      (Outcome.returned (some r.1) r.2, ⟨s, w.calls ++ [Call.Scan input]⟩)

def GetTodo (L : Libs Item) (id tableName : String)
    (dynaClient : DynamoDBAPI σ Item) (w : World σ Item) :
    Outcome Todo × World σ Item :=
  let input : GetItemInput := { Key := id, TableName := tableName }
  match dynaClient.GetItem input w.store with
  | (Except.error _, s) =>
    (Outcome.fail ErrorFailedToFetchRecord, ⟨s, w.calls ++ [Call.GetItem input]⟩)
  | (Except.ok result, s) =>
    match L.UnmarshalMap result with
    | none => (Outcome.fail ErrorFailedToUnmarshalRecord, ⟨s, w.calls ++ [Call.GetItem input]⟩)
    | some item => (Outcome.ok item, ⟨s, w.calls ++ [Call.GetItem input]⟩)

/-- The argument `uuid` is the value of `uuid.New().String()` in this invocation. -/
def CreateTodo (L : Libs Item) (uuid : String) (req : APIGatewayProxyRequest)
    (tableName : String) (dynaClient : DynamoDBAPI σ Item) (w : World σ Item) :
    Outcome Todo × World σ Item :=
  match L.jsonUnmarshal req.Body with
  | none => (Outcome.fail ErrorInvalidData, w)
  | some t0 =>
    -- line 93: `t.Id = uuid.New().String()`
    let t : Todo := { t0 with Id := uuid }
    match L.MarshalMap t with
    | none => (Outcome.fail ErrorCouldNotMarshalItem, w)
    | some av =>
      let input : PutItemInput Item := { Item := av, TableName := tableName }
      match dynaClient.PutItem input w.store with
      | (Except.error _, s) =>
        (Outcome.fail ErrorCouldNotDynamoPutItem, ⟨s, w.calls ++ [Call.PutItem input]⟩)
      | (Except.ok _, s) => (Outcome.ok t, ⟨s, w.calls ++ [Call.PutItem input]⟩)

def UpdateTodo (L : Libs Item) (req : APIGatewayProxyRequest) (tableName : String)
    (dynaClient : DynamoDBAPI σ Item) (w : World σ Item) :
    Outcome Todo × World σ Item :=
  match L.jsonUnmarshal req.Body with
  | none => (Outcome.fail ErrorInvalidData, w)
  | some t0 =>
    if len t0.Id == 0 then (Outcome.fail ErrorInvalidData, w)
    else
      -- line 123: `curTodo, _ := GetTodo(...)`, the error is dropped
      match GetTodo L t0.Id tableName dynaClient w with
      | (Outcome.panicked, w1) => (Outcome.panicked, w1)
      | (Outcome.returned curTodo _, w1) =>
        -- line 124: `curTodo != nil && len(curTodo.CreatedBy) == 0`
        if (match curTodo with
            | some cur => len cur.CreatedBy == 0
            | none => false) then (Outcome.fail ErrorDoesNotExist, w1)
        else
          -- line 128: `curTodo.CreatedBy` dereferences `curTodo`
          match curTodo with
          | none => (Outcome.panicked, w1)
          | some cur =>
            let t1 : Todo := { t0 with CreatedBy := cur.CreatedBy }
            let t : Todo := if len t1.Item == 0 then { t1 with Item := cur.Item } else t1
            match L.MarshalMap t with
            | none => (Outcome.fail ErrorCouldNotMarshalItem, w1)
            | some av =>
              let input : PutItemInput Item := { Item := av, TableName := tableName }
              match dynaClient.PutItem input w1.store with
              | (Except.error _, s) =>
                (Outcome.fail ErrorCouldNotDynamoPutItem, ⟨s, w1.calls ++ [Call.PutItem input]⟩)
              | (Except.ok _, s) => (Outcome.ok t, ⟨s, w1.calls ++ [Call.PutItem input]⟩)

/-- The handler `DeleteTodo` returns only an `error`. -/
def DeleteTodo (req : APIGatewayProxyRequest) (tableName : String)
    (dynaClient : DynamoDBAPI σ Item) (w : World σ Item) :
    Option String × World σ Item :=
  let id := queryParam req "id"
  let input : DeleteItemInput := { Key := id, TableName := tableName }
  match dynaClient.DeleteItem input w.store with
  | (Except.error _, s) =>
    (some ErrorCouldNotDeleteItem, ⟨s, w.calls ++ [Call.DeleteItem input]⟩)
  | (Except.ok _, s) => (none, ⟨s, w.calls ++ [Call.DeleteItem input]⟩)

end Handlers

/-! ## A reference store and a reference codec

The handlers above are written against an arbitrary client and arbitrary library
functions.  The statements that speak about the contents of the table need a store
that behaves as a table: `kvClient` keeps one item per table name and key, stores an
item under its key attribute (`keyOf`), and fails a call whenever the next entry of a
fault script says so.  `refLibs` is a small codec over attribute maps. -/

/-- State of the reference store: the rows, addressed by table name and key, and the
fault script (`true`: the next call fails; an empty script: no call fails). -/
structure KV (Item : Type) where
  rows : List ((String × String) × Item)
  faults : List Bool

/-- Whether the next call fails, and the state with that entry of the script consumed. -/
def KV.next {Item : Type} (s : KV Item) : Bool × KV Item :=
  match s.faults with
  | [] => (false, s)
  | b :: rest => (b, { s with faults := rest })

/-- The item stored in table `tbl` under key `k`. -/
def KV.find {Item : Type} (s : KV Item) (tbl k : String) : Option Item :=
  s.rows.lookup (tbl, k)

/-- The rows without the one addressed by `tbl` and `k`. -/
def KV.drop {Item : Type} (rows : List ((String × String) × Item)) (tbl k : String) :
    List ((String × String) × Item) :=
  rows.filter (fun r => !(r.1 == (tbl, k)))

/-- The reference client.  `keyOf` reads the key attribute `id` of an item, `sel` decides
whether an item passes a scan filter. -/
def kvClient {Item : Type} (keyOf : Item → String) (sel : ScanInput → Item → Bool) :
    DynamoDBAPI (KV Item) Item where
  GetItem := fun input s =>
    match s.next with
    | (true, s1) => (Except.error "GetItem: request failed", s1)
    | (false, s1) => (Except.ok (s1.find input.TableName input.Key), s1)
  PutItem := fun input s =>
    match s.next with
    | (true, s1) => (Except.error "PutItem: request failed", s1)
    | (false, s1) =>
      (Except.ok (),
        { s1 with rows := ((input.TableName, keyOf input.Item), input.Item) ::
            KV.drop s1.rows input.TableName (keyOf input.Item) })
  DeleteItem := fun input s =>
    match s.next with
    | (true, s1) => (Except.error "DeleteItem: request failed", s1)
    | (false, s1) => (Except.ok (), { s1 with rows := KV.drop s1.rows input.TableName input.Key })
  Scan := fun input s =>
    match s.next with
    | (true, s1) => (Except.error "Scan: request failed", s1)
    | (false, s1) =>
      (Except.ok (((s1.rows.filter (fun r => r.1.1 == input.TableName)).map (fun r => r.2)).filter
        (sel input)), s1)

/-- A DynamoDB attribute value, as far as a `Todo` needs it. -/
inductive AttributeValue where
  | S (s : String)
  | N (n : Int)
  | NULL
deriving DecidableEq, Repr

/-- An item: attribute names with their values. -/
abbrev AttrMap : Type := List (String × AttributeValue)

/-- A string field: the empty string is written as `NULL`. -/
def encodeString (s : String) : AttributeValue :=
  if s = "" then AttributeValue.NULL else AttributeValue.S s

/-- Reads a string field: an absent or `NULL` attribute leaves the zero value, a number
attribute is copied as its digits. -/
def decodeString : Option AttributeValue → Option String
  | none => some ""
  | some AttributeValue.NULL => some ""
  | some (AttributeValue.S s) => some s
  | some (AttributeValue.N n) => some (toString n)

/-- Reads an integer field: an absent or `NULL` attribute leaves the zero value.  Number
attributes are integers here; the range of a Go `int` is not checked. -/
def decodeInt : Option AttributeValue → Option Int
  | none => some 0
  | some AttributeValue.NULL => some 0
  | some (AttributeValue.N n) => some n
  | some (AttributeValue.S _) => none

def refMarshalMap (t : Todo) : AttrMap :=
  [("id", encodeString t.Id), ("item", encodeString t.Item),
   ("createdBy", encodeString t.CreatedBy), ("state", AttributeValue.N t.State)]

/-- Decodes an item; attribute names are matched exactly. -/
def refUnmarshalMap : Option AttrMap → Option Todo
  | none => some zeroTodo
  | some m =>
    match decodeString (m.lookup "id"), decodeString (m.lookup "item"),
      decodeString (m.lookup "createdBy"), decodeInt (m.lookup "state") with
    | some i, some it, some cb, some st => some { Id := i, Item := it, CreatedBy := cb, State := st }
    | _, _, _, _ => none

def refUnmarshalListOfMaps : List AttrMap → List Todo × Option String
  | [] => ([], none)
  | m :: rest =>
    match refUnmarshalMap (some m) with
    | none => ([], some "unmarshal type error")
    | some t =>
      match refUnmarshalListOfMaps rest with
      | (ts, e) => (t :: ts, e)

/-- The key attribute of an item: the string under `id`. -/
def refKeyOf (m : AttrMap) : String :=
  match m.lookup "id" with
  | some (AttributeValue.S s) => s
  | _ => ""

/-- The scan filter `createdBy = :v AND state = :w` on an item. -/
def refSel (input : ScanInput) (m : AttrMap) : Bool :=
  m.lookup "createdBy" == some (AttributeValue.S input.FilterCreatedBy) &&
  m.lookup "state" == some (AttributeValue.N input.FilterState)

/-- The reference library functions; the JSON decoder knows the listed bodies. -/
def refLibs (bodies : List (String × Todo)) : Libs AttrMap where
  jsonUnmarshal := fun body => bodies.lookup body
  MarshalMap := fun t => some (refMarshalMap t)
  UnmarshalMap := refUnmarshalMap
  UnmarshalListOfMaps := refUnmarshalListOfMaps

/-- The reference client over attribute maps. -/
def refClient : DynamoDBAPI (KV AttrMap) AttrMap := kvClient refKeyOf refSel

/-- Every row of the store carries a non-empty id equal to the key it is stored under. -/
def KV.keyed {Item : Type} (keyOf : Item → String) (s : KV Item) : Prop :=
  ∀ r ∈ s.rows, keyOf r.2 = r.1.2 ∧ r.1.2 ≠ ""

instance KV.decidableKeyed {Item : Type} (keyOf : Item → String) (s : KV Item) :
    Decidable (KV.keyed keyOf s) := by
  unfold KV.keyed
  infer_instance

/-! ## Sample data -/

/-- An identifier as `uuid.New().String()` prints one. -/
def sampleId : String := "0b2f6c1e-5d3a-4c8e-9f47-2a6d1e0c7b95"

/-- The body of a create request. -/
def createBody : String :=
  "\x7b\"item\":\"buy milk\",\"createdBy\":\"alice\",\"state\":0\x7d"

/-- The body of a create request that brings an id of its own. -/
def createWithIdBody : String :=
  "\x7b\"id\":\"my-own-id\",\"item\":\"buy milk\",\"createdBy\":\"alice\",\"state\":0\x7d"

/-- The body of an update request for `sampleId` with an empty item and another owner. -/
def updateBody : String :=
  "\x7b\"id\":\"0b2f6c1e-5d3a-4c8e-9f47-2a6d1e0c7b95\",\"item\":\"\",\"createdBy\":\"bob\",\"state\":1\x7d"

/-- The body of an update request for `sampleId` that brings a new item. -/
def renameBody : String :=
  "\x7b\"id\":\"0b2f6c1e-5d3a-4c8e-9f47-2a6d1e0c7b95\",\"item\":\"buy bread\",\"state\":2\x7d"

/-- The body of a create request that brings `sampleId` as its id. -/
def createSameIdBody : String :=
  "\x7b\"id\":\"0b2f6c1e-5d3a-4c8e-9f47-2a6d1e0c7b95\",\"item\":\"buy milk\",\"createdBy\":\"alice\",\"state\":0\x7d"

/-- Sixteen bytes of the random source; `uuidString` prints them as `sampleId`. -/
def sampleRandom : List Nat :=
  [0x0b, 0x2f, 0x6c, 0x1e, 0x5d, 0x3a, 0xac, 0x8e, 0x1f, 0x47, 0x2a, 0x6d, 0x1e, 0x0c, 0x7b, 0x95]

/-- The body of an update request without an id. -/
def noIdBody : String := "\x7b\"item\":\"walk\",\"state\":2\x7d"

/-- A body that is not JSON. -/
def brokenBody : String := "\x7b\"id\":"

/-- The library functions with a decoder for the sample bodies. -/
def sampleLibs : Libs AttrMap :=
  refLibs [(createBody, { Id := "", Item := "buy milk", CreatedBy := "alice", State := 0 }),
           (createWithIdBody,
             { Id := "my-own-id", Item := "buy milk", CreatedBy := "alice", State := 0 }),
           (updateBody, { Id := sampleId, Item := "", CreatedBy := "bob", State := 1 }),
           (noIdBody, { Id := "", Item := "walk", CreatedBy := "", State := 2 }),
           (renameBody, { Id := sampleId, Item := "buy bread", CreatedBy := "", State := 2 }),
           (createSameIdBody,
             { Id := sampleId, Item := "buy milk", CreatedBy := "alice", State := 0 })]

def createReq : APIGatewayProxyRequest := { QueryStringParameters := [], Body := createBody }
def createWithIdReq : APIGatewayProxyRequest :=
  { QueryStringParameters := [], Body := createWithIdBody }
def updateReq : APIGatewayProxyRequest := { QueryStringParameters := [], Body := updateBody }
def renameReq : APIGatewayProxyRequest := { QueryStringParameters := [], Body := renameBody }
def createSameIdReq : APIGatewayProxyRequest :=
  { QueryStringParameters := [], Body := createSameIdBody }
def noIdReq : APIGatewayProxyRequest := { QueryStringParameters := [], Body := noIdBody }
def brokenReq : APIGatewayProxyRequest := { QueryStringParameters := [], Body := brokenBody }

/-- A delete request for `sampleId`. -/
def deleteReq : APIGatewayProxyRequest :=
  { QueryStringParameters := [("id", sampleId)], Body := "" }

/-- The record the create request leaves in the store. -/
def createdTodo : Todo := { Id := sampleId, Item := "buy milk", CreatedBy := "alice", State := 0 }

/-- The record the update request leaves in the store. -/
def updatedTodo : Todo := { Id := sampleId, Item := "buy milk", CreatedBy := "alice", State := 1 }

/-- The record the rename request leaves in the store. -/
def renamedTodo : Todo := { Id := sampleId, Item := "buy bread", CreatedBy := "alice", State := 2 }

/-- An empty store that answers every call. -/
def emptyWorld : World (KV AttrMap) AttrMap := { store := { rows := [], faults := [] }, calls := [] }

/-- An empty store whose next call fails. -/
def failingWorld : World (KV AttrMap) AttrMap :=
  { store := { rows := [], faults := [true] }, calls := [] }

/-- A store holding `createdTodo` in table `todos`. -/
def storedWorld : World (KV AttrMap) AttrMap :=
  { store := { rows := [(("todos", sampleId), refMarshalMap createdTodo)], faults := [] },
    calls := [] }

/-- A store holding a record without `createdBy` under `sampleId`. -/
def ownerlessWorld : World (KV AttrMap) AttrMap :=
  { store :=
      { rows := [(("todos", sampleId),
          refMarshalMap { Id := sampleId, Item := "buy milk", CreatedBy := "", State := 0 })],
        faults := [] },
    calls := [] }

/-! ## Basic facts -/

theorem len_eq_zero_iff (s : String) : len s = 0 ↔ s = "" := by
  obtain ⟨cs⟩ := s
  cases cs with
  | nil => exact ⟨fun _ => rfl, fun _ => rfl⟩
  | cons c rest =>
    constructor
    · intro h
      have hp := c.utf8Size_pos
      have hgo : String.utf8ByteSize.go (c :: rest) =
          String.utf8ByteSize.go rest + c.utf8Size := rfl
      have h1 : String.utf8ByteSize.go (c :: rest) = 0 := h
      omega
    · intro h
      have hd := congrArg String.data h
      exact absurd hd (List.cons_ne_nil c rest)

theorem len_beq_zero_of_empty {s : String} (h : s = "") : (len s == 0) = true := by
  subst h; rfl

theorem len_beq_zero_of_ne {s : String} (h : s ≠ "") : (len s == 0) = false := by
  have h1 : len s ≠ 0 := fun h0 => h ((len_eq_zero_iff s).mp h0)
  simpa using h1

section HandlerFacts

variable {σ Item : Type}

/-- Every call of `GetTodo` makes exactly the one `GetItem` call, whatever it returns. -/
theorem GetTodo_calls (L : Libs Item) (id tbl : String) (c : DynamoDBAPI σ Item)
    (w : World σ Item) :
    (GetTodo L id tbl c w).2 =
      ⟨(c.GetItem ⟨id, tbl⟩ w.store).2, w.calls ++ [Call.GetItem ⟨id, tbl⟩]⟩ := by
  unfold GetTodo
  rcases hg : c.GetItem ⟨id, tbl⟩ w.store with ⟨r, s⟩
  cases r with
  | error e => simp [hg]
  | ok result =>
    cases hu : L.UnmarshalMap result <;> simp [hg, hu]

/-- A failed lookup makes `GetTodo` return `nil` with "failed to fetch record". -/
theorem GetTodo_of_error (L : Libs Item) (id tbl : String) (c : DynamoDBAPI σ Item)
    (w : World σ Item) (e : String) (s : σ)
    (hg : c.GetItem ⟨id, tbl⟩ w.store = (Except.error e, s)) :
    GetTodo L id tbl c w =
      (Outcome.fail ErrorFailedToFetchRecord, ⟨s, w.calls ++ [Call.GetItem ⟨id, tbl⟩]⟩) := by
  unfold GetTodo
  simp [hg]

/-- An answered lookup whose item decodes makes `GetTodo` return the decoded record. -/
theorem GetTodo_of_ok (L : Libs Item) (id tbl : String) (c : DynamoDBAPI σ Item)
    (w : World σ Item) (result : Option Item) (s : σ) (t : Todo)
    (hg : c.GetItem ⟨id, tbl⟩ w.store = (Except.ok result, s))
    (hu : L.UnmarshalMap result = some t) :
    GetTodo L id tbl c w = (Outcome.ok t, ⟨s, w.calls ++ [Call.GetItem ⟨id, tbl⟩]⟩) := by
  unfold GetTodo
  simp [hg, hu]

/-- The handler `GetTodo` never panics. -/
theorem GetTodo_ne_panicked (L : Libs Item) (id tbl : String) (c : DynamoDBAPI σ Item)
    (w : World σ Item) : (GetTodo L id tbl c w).1 ≠ Outcome.panicked := by
  unfold GetTodo
  rcases hg : c.GetItem ⟨id, tbl⟩ w.store with ⟨r, s⟩
  cases r with
  | error e => simp [hg, Outcome.fail]
  | ok result =>
    cases hu : L.UnmarshalMap result <;> simp [hg, hu, Outcome.fail, Outcome.ok]

/-- What `UpdateTodo` does once the payload decoded with a non-empty id and the lookup
returned a record with a non-empty `createdBy`: it writes the merged record. -/
theorem UpdateTodo_of_fetched (L : Libs Item) (req : APIGatewayProxyRequest) (tbl : String)
    (c : DynamoDBAPI σ Item) (w w1 : World σ Item) (t0 cur : Todo) (e : Option String)
    (hdec : L.jsonUnmarshal req.Body = some t0) (hid : t0.Id ≠ "")
    (hget : GetTodo L t0.Id tbl c w = (Outcome.returned (some cur) e, w1))
    (hcb : cur.CreatedBy ≠ "") :
    UpdateTodo L req tbl c w =
      (match L.MarshalMap { Id := t0.Id, Item := if t0.Item = "" then cur.Item else t0.Item,
                            CreatedBy := cur.CreatedBy, State := t0.State } with
       | none => (Outcome.fail ErrorCouldNotMarshalItem, w1)
       | some av =>
         match c.PutItem ⟨av, tbl⟩ w1.store with
         | (Except.error _, s) =>
           (Outcome.fail ErrorCouldNotDynamoPutItem, ⟨s, w1.calls ++ [Call.PutItem ⟨av, tbl⟩]⟩)
         | (Except.ok _, s) =>
           (Outcome.ok { Id := t0.Id, Item := if t0.Item = "" then cur.Item else t0.Item,
                         CreatedBy := cur.CreatedBy, State := t0.State },
            ⟨s, w1.calls ++ [Call.PutItem ⟨av, tbl⟩]⟩)) := by
  unfold UpdateTodo
  simp only [hdec, hget, len_beq_zero_of_ne hid, len_beq_zero_of_ne hcb]
  by_cases hit : t0.Item = ""
  · simp [hit, len_beq_zero_of_empty]
  · simp [hit, len_beq_zero_of_ne hit]

end HandlerFacts

/-! ## Update -/

section UpdateClaims

variable {σ Item : Type}

/-- A successful `UpdateTodo` went past both guards: the id of the payload and the
`createdBy` of the fetched record are non-empty. -/
theorem UpdateTodo_success_guards (L : Libs Item) (req : APIGatewayProxyRequest) (tbl : String)
    (c : DynamoDBAPI σ Item) (w w1 w2 : World σ Item) (t0 cur r : Todo) (e err : Option String)
    (hdec : L.jsonUnmarshal req.Body = some t0)
    (hget : GetTodo L t0.Id tbl c w = (Outcome.returned (some cur) e, w1))
    (hres : UpdateTodo L req tbl c w = (Outcome.returned (some r) err, w2)) :
    t0.Id ≠ "" ∧ cur.CreatedBy ≠ "" := by
  constructor
  · intro hid
    unfold UpdateTodo at hres
    simp [hdec, len_beq_zero_of_empty hid, Outcome.fail] at hres
  · intro hcb
    unfold UpdateTodo at hres
    by_cases hid : t0.Id = ""
    · simp [hdec, len_beq_zero_of_empty hid, Outcome.fail] at hres
    · simp [hdec, hget, len_beq_zero_of_ne hid, len_beq_zero_of_empty hcb, Outcome.fail] at hres

/-- A successful `UpdateTodo` returns the merged record, has written it with one
`PutItem` call after the one `GetItem` call, and returns no error. -/
theorem UpdateTodo_success (L : Libs Item) (req : APIGatewayProxyRequest) (tbl : String)
    (c : DynamoDBAPI σ Item) (w w1 w2 : World σ Item) (t0 cur r : Todo) (e err : Option String)
    (hdec : L.jsonUnmarshal req.Body = some t0)
    (hget : GetTodo L t0.Id tbl c w = (Outcome.returned (some cur) e, w1))
    (hres : UpdateTodo L req tbl c w = (Outcome.returned (some r) err, w2)) :
    r = { Id := t0.Id, Item := if t0.Item = "" then cur.Item else t0.Item,
          CreatedBy := cur.CreatedBy, State := t0.State } ∧ err = none ∧
    ∃ av, L.MarshalMap r = some av ∧
      c.PutItem ⟨av, tbl⟩ w1.store = (Except.ok (), w2.store) ∧
      w2.calls = w.calls ++ [Call.GetItem ⟨t0.Id, tbl⟩, Call.PutItem ⟨av, tbl⟩] := by
  obtain ⟨hid, hcb⟩ := UpdateTodo_success_guards L req tbl c w w1 w2 t0 cur r e err hdec hget hres
  have hw1 : w1.calls = w.calls ++ [Call.GetItem ⟨t0.Id, tbl⟩] := by
    have := GetTodo_calls L t0.Id tbl c w
    rw [hget] at this
    simpa using congrArg World.calls this
  rw [UpdateTodo_of_fetched L req tbl c w w1 t0 cur e hdec hid hget hcb] at hres
  cases hm : L.MarshalMap { Id := t0.Id, Item := if t0.Item = "" then cur.Item else t0.Item,
                                CreatedBy := cur.CreatedBy, State := t0.State } with
  | none => simp [hm, Outcome.fail] at hres
  | some av =>
    simp only [hm] at hres
    rcases hp : c.PutItem ⟨av, tbl⟩ w1.store with ⟨pr, s⟩
    simp only [hp] at hres
    cases pr with
    | error pe => simp [Outcome.fail] at hres
    | ok u =>
      simp only [Outcome.ok, Prod.mk.injEq, Outcome.returned.injEq, Option.some.injEq] at hres
      obtain ⟨⟨hr, herr⟩, hw2⟩ := hres
      refine ⟨hr.symm, herr.symm, av, ?_, ?_, ?_⟩
      · rw [← hr]; exact hm
      · rw [← hw2]; exact hp
      · rw [← hw2]; simp [hw1]

/-- Claim C1: for an update payload with a non-empty id whose fetched (stored) record
has a non-empty `createdBy`, a successful `UpdateTodo` returns a record whose `createdBy`
is the stored one, whatever `createdBy` the payload carries, and that record is what the
one `PutItem` call wrote. -/
theorem UpdateTodo_createdBy_immutable (L : Libs Item) (req : APIGatewayProxyRequest)
    (tbl : String) (c : DynamoDBAPI σ Item) (w w1 w2 : World σ Item) (t0 cur r : Todo)
    (e err : Option String)
    (hdec : L.jsonUnmarshal req.Body = some t0) (_hid : t0.Id ≠ "")
    (hget : GetTodo L t0.Id tbl c w = (Outcome.returned (some cur) e, w1))
    (_hcb : cur.CreatedBy ≠ "")
    (hres : UpdateTodo L req tbl c w = (Outcome.returned (some r) err, w2)) :
    r.CreatedBy = cur.CreatedBy ∧ err = none ∧
    ∃ av, L.MarshalMap r = some av ∧
      c.PutItem ⟨av, tbl⟩ w1.store = (Except.ok (), w2.store) ∧
      w2.calls = w.calls ++ [Call.GetItem ⟨t0.Id, tbl⟩, Call.PutItem ⟨av, tbl⟩] := by
  obtain ⟨hr, herr, hav⟩ := UpdateTodo_success L req tbl c w w1 w2 t0 cur r e err hdec hget hres
  refine ⟨?_, herr, hav⟩
  rw [hr]

/-- Claim C2: for an update payload on an existing record (non-empty id, fetched record
with a non-empty `createdBy`), when the merged record marshals and the write succeeds,
`UpdateTodo` returns a record, with no error, whose item is the stored item when the
payload's item is empty and the payload's item when it is not; and every record that
`UpdateTodo` returns for that payload has that item. -/
theorem UpdateTodo_item_merge (L : Libs Item) (req : APIGatewayProxyRequest)
    (tbl : String) (c : DynamoDBAPI σ Item) (w w1 : World σ Item) (t0 cur : Todo)
    (e : Option String) (av : Item) (u : Unit) (s : σ)
    (hdec : L.jsonUnmarshal req.Body = some t0) (hid : t0.Id ≠ "")
    (hget : GetTodo L t0.Id tbl c w = (Outcome.returned (some cur) e, w1))
    (hcb : cur.CreatedBy ≠ "")
    (hmar : L.MarshalMap { Id := t0.Id, Item := if t0.Item = "" then cur.Item else t0.Item,
                           CreatedBy := cur.CreatedBy, State := t0.State } = some av)
    (hput : c.PutItem ⟨av, tbl⟩ w1.store = (Except.ok u, s)) :
    (∃ r, UpdateTodo L req tbl c w =
        (Outcome.returned (some r) none, ⟨s, w1.calls ++ [Call.PutItem ⟨av, tbl⟩]⟩) ∧
      (t0.Item = "" → r.Item = cur.Item) ∧ (t0.Item ≠ "" → r.Item = t0.Item)) ∧
    (∀ r err w2, UpdateTodo L req tbl c w = (Outcome.returned (some r) err, w2) →
      (t0.Item = "" → r.Item = cur.Item) ∧ (t0.Item ≠ "" → r.Item = t0.Item)) := by
  have hrun := UpdateTodo_of_fetched L req tbl c w w1 t0 cur e hdec hid hget hcb
  simp only [hmar, hput] at hrun
  have hitem : ∀ r : Todo,
      r = { Id := t0.Id, Item := if t0.Item = "" then cur.Item else t0.Item,
            CreatedBy := cur.CreatedBy, State := t0.State } →
      (t0.Item = "" → r.Item = cur.Item) ∧ (t0.Item ≠ "" → r.Item = t0.Item) := by
    intro r hr
    subst hr
    constructor
    · intro h0
      simp [h0]
    · intro h0
      simp [h0]
  constructor
  · exact ⟨_, hrun, hitem _ rfl⟩
  · intro r err w2 hres
    rw [hrun] at hres
    simp only [Outcome.ok, Prod.mk.injEq, Outcome.returned.injEq, Option.some.injEq] at hres
    exact hitem r hres.1.1.symm

/-- The first two guards of `UpdateTodo`: no decoded record, or one with an empty id. -/
theorem UpdateTodo_of_invalid (L : Libs Item) (req : APIGatewayProxyRequest)
    (tbl : String) (c : DynamoDBAPI σ Item) (w : World σ Item)
    (h : L.jsonUnmarshal req.Body = none ∨
      ∃ t, L.jsonUnmarshal req.Body = some t ∧ t.Id = "") :
    UpdateTodo L req tbl c w = (Outcome.fail ErrorInvalidData, w) := by
  rcases h with h | ⟨t, h, hid⟩
  · unfold UpdateTodo
    simp [h]
  · unfold UpdateTodo
    simp [h, len_beq_zero_of_empty hid]

/-- The third guard of `UpdateTodo`: the fetched record has an empty `createdBy`. -/
theorem UpdateTodo_of_ownerless (L : Libs Item) (req : APIGatewayProxyRequest)
    (tbl : String) (c : DynamoDBAPI σ Item) (w w1 : World σ Item) (t0 cur : Todo)
    (e : Option String)
    (hdec : L.jsonUnmarshal req.Body = some t0) (hid : t0.Id ≠ "")
    (hget : GetTodo L t0.Id tbl c w = (Outcome.returned (some cur) e, w1))
    (hcb : cur.CreatedBy = "") :
    UpdateTodo L req tbl c w = (Outcome.fail ErrorDoesNotExist, w1) := by
  unfold UpdateTodo
  simp [hdec, hget, len_beq_zero_of_ne hid, len_beq_zero_of_empty hcb]

/-- Claim C4: when the record fetched for the payload's non-empty id has an empty
`createdBy`, `UpdateTodo` fails with "does not exist"; the only call made is the lookup. -/
theorem UpdateTodo_does_not_exist (L : Libs Item) (req : APIGatewayProxyRequest)
    (tbl : String) (c : DynamoDBAPI σ Item) (w w1 : World σ Item) (t0 cur : Todo)
    (e : Option String)
    (hdec : L.jsonUnmarshal req.Body = some t0) (hid : t0.Id ≠ "")
    (hget : GetTodo L t0.Id tbl c w = (Outcome.returned (some cur) e, w1))
    (hcb : cur.CreatedBy = "") :
    UpdateTodo L req tbl c w = (Outcome.fail ErrorDoesNotExist, w1) ∧
    w1.calls = w.calls ++ [Call.GetItem ⟨t0.Id, tbl⟩] ∧
    w1.store = (c.GetItem ⟨t0.Id, tbl⟩ w.store).2 := by
  have hw := GetTodo_calls L t0.Id tbl c w
  rw [hget] at hw
  refine ⟨UpdateTodo_of_ownerless L req tbl c w w1 t0 cur e hdec hid hget hcb, ?_, ?_⟩
  · simpa using congrArg World.calls hw
  · simpa using congrArg World.store hw

/-- Claim C8: a body that does not decode, or decodes to a record with an empty id,
makes `UpdateTodo` fail with "invalid data"; the store and the call log are untouched
(no lookup and no write is made). -/
theorem UpdateTodo_invalid_data (L : Libs Item) (req : APIGatewayProxyRequest)
    (tbl : String) (c : DynamoDBAPI σ Item) (w : World σ Item)
    (h : L.jsonUnmarshal req.Body = none ∨
      ∃ t, L.jsonUnmarshal req.Body = some t ∧ t.Id = "") :
    UpdateTodo L req tbl c w = (Outcome.fail ErrorInvalidData, w) := by
  rcases h with hnone | ⟨t, hsome, hid⟩
  · unfold UpdateTodo
    simp only [hnone]
  · have hlen : (len t.Id == 0) = true := len_beq_zero_of_empty hid
    unfold UpdateTodo
    simp only [hsome, hlen, if_true]

/-- A failed write makes `UpdateTodo` return "could not dynamo put item". -/
theorem UpdateTodo_of_put_error (L : Libs Item) (req : APIGatewayProxyRequest) (tbl : String)
    (c : DynamoDBAPI σ Item) (w w1 : World σ Item) (t0 cur : Todo) (e : Option String)
    (av : Item) (pe : String) (s : σ)
    (hdec : L.jsonUnmarshal req.Body = some t0) (hid : t0.Id ≠ "")
    (hget : GetTodo L t0.Id tbl c w = (Outcome.returned (some cur) e, w1))
    (hcb : cur.CreatedBy ≠ "")
    (hmar : L.MarshalMap { Id := t0.Id, Item := if t0.Item = "" then cur.Item else t0.Item,
                           CreatedBy := cur.CreatedBy, State := t0.State } = some av)
    (hput : c.PutItem ⟨av, tbl⟩ w1.store = (Except.error pe, s)) :
    UpdateTodo L req tbl c w =
      (Outcome.fail ErrorCouldNotDynamoPutItem, ⟨s, w1.calls ++ [Call.PutItem ⟨av, tbl⟩]⟩) := by
  rw [UpdateTodo_of_fetched L req tbl c w w1 t0 cur e hdec hid hget hcb]
  simp [hmar, hput]

/-- When the lookup of the current record fails, `UpdateTodo` panics: `GetTodo` returns
`nil`, the guard on `curTodo != nil` is skipped and `curTodo.CreatedBy` is read. -/
theorem UpdateTodo_panics_of_lookup_error (L : Libs Item) (req : APIGatewayProxyRequest)
    (tbl : String) (c : DynamoDBAPI σ Item) (w : World σ Item) (t0 : Todo) (e : String) (s : σ)
    (hdec : L.jsonUnmarshal req.Body = some t0) (hid : t0.Id ≠ "")
    (hg : c.GetItem ⟨t0.Id, tbl⟩ w.store = (Except.error e, s)) :
    UpdateTodo L req tbl c w =
      (Outcome.panicked, ⟨s, w.calls ++ [Call.GetItem ⟨t0.Id, tbl⟩]⟩) := by
  unfold UpdateTodo
  simp [hdec, len_beq_zero_of_ne hid, GetTodo_of_error L t0.Id tbl c w e s hg, Outcome.fail]

/-- The same happens when the fetched item does not decode. -/
theorem UpdateTodo_panics_of_decode_error (L : Libs Item) (req : APIGatewayProxyRequest)
    (tbl : String) (c : DynamoDBAPI σ Item) (w : World σ Item) (t0 : Todo)
    (result : Option Item) (s : σ)
    (hdec : L.jsonUnmarshal req.Body = some t0) (hid : t0.Id ≠ "")
    (hg : c.GetItem ⟨t0.Id, tbl⟩ w.store = (Except.ok result, s))
    (hu : L.UnmarshalMap result = none) :
    UpdateTodo L req tbl c w =
      (Outcome.panicked, ⟨s, w.calls ++ [Call.GetItem ⟨t0.Id, tbl⟩]⟩) := by
  have hget : GetTodo L t0.Id tbl c w =
      (Outcome.fail ErrorFailedToUnmarshalRecord,
        ⟨s, w.calls ++ [Call.GetItem ⟨t0.Id, tbl⟩]⟩) := by
    unfold GetTodo
    simp [hg, hu]
  unfold UpdateTodo
  simp [hdec, len_beq_zero_of_ne hid, hget, Outcome.fail]

end UpdateClaims

/-- Witness of `UpdateTodo_createdBy_immutable`: the update of `storedWorld` with a
payload naming "bob" returns the record still owned by "alice". -/
theorem UpdateTodo_createdBy_immutable_witness :
    (UpdateTodo sampleLibs updateReq "todos" refClient storedWorld).1 = Outcome.ok updatedTodo ∧
    updatedTodo.CreatedBy = createdTodo.CreatedBy :=
  ⟨rfl,
   (UpdateTodo_createdBy_immutable sampleLibs updateReq "todos" refClient storedWorld
      (GetTodo sampleLibs sampleId "todos" refClient storedWorld).2
      (UpdateTodo sampleLibs updateReq "todos" refClient storedWorld).2
      { Id := sampleId, Item := "", CreatedBy := "bob", State := 1 } createdTodo updatedTodo
      none none rfl (by decide) rfl (by decide) rfl).1⟩

/-- Witness of `UpdateTodo_item_merge`: on the store holding "buy milk", the update with
an empty item returns "buy milk", and the update that brings "buy bread" returns
"buy bread". -/
theorem UpdateTodo_item_merge_witness :
    (∃ r, UpdateTodo sampleLibs updateReq "todos" refClient storedWorld =
        (Outcome.returned (some r) none,
          ⟨{ rows := [(("todos", sampleId), refMarshalMap updatedTodo)], faults := [] },
           [Call.GetItem ⟨sampleId, "todos"⟩] ++
             [Call.PutItem ⟨refMarshalMap updatedTodo, "todos"⟩]⟩) ∧
      (("" : String) = "" → r.Item = "buy milk") ∧ (("" : String) ≠ "" → r.Item = "")) ∧
    (∃ r, UpdateTodo sampleLibs renameReq "todos" refClient storedWorld =
        (Outcome.returned (some r) none,
          ⟨{ rows := [(("todos", sampleId), refMarshalMap renamedTodo)], faults := [] },
           [Call.GetItem ⟨sampleId, "todos"⟩] ++
             [Call.PutItem ⟨refMarshalMap renamedTodo, "todos"⟩]⟩) ∧
      (("buy bread" : String) = "" → r.Item = "buy milk") ∧
      (("buy bread" : String) ≠ "" → r.Item = "buy bread")) :=
  ⟨(UpdateTodo_item_merge sampleLibs updateReq "todos" refClient storedWorld
      ⟨storedWorld.store, [Call.GetItem ⟨sampleId, "todos"⟩]⟩
      { Id := sampleId, Item := "", CreatedBy := "bob", State := 1 } createdTodo none
      (refMarshalMap updatedTodo) ()
      { rows := [(("todos", sampleId), refMarshalMap updatedTodo)], faults := [] }
      rfl (by decide) rfl (by decide) rfl rfl).1,
   (UpdateTodo_item_merge sampleLibs renameReq "todos" refClient storedWorld
      ⟨storedWorld.store, [Call.GetItem ⟨sampleId, "todos"⟩]⟩
      { Id := sampleId, Item := "buy bread", CreatedBy := "", State := 2 } createdTodo none
      (refMarshalMap renamedTodo) ()
      { rows := [(("todos", sampleId), refMarshalMap renamedTodo)], faults := [] }
      rfl (by decide) rfl (by decide) rfl rfl).1⟩

/-- Witness of `UpdateTodo_does_not_exist`: an update for an id the store does not hold,
and an update for an id whose stored record has no `createdBy`. -/
theorem UpdateTodo_does_not_exist_witness :
    (UpdateTodo sampleLibs updateReq "todos" refClient emptyWorld =
        (Outcome.fail ErrorDoesNotExist,
          ⟨emptyWorld.store, [Call.GetItem ⟨sampleId, "todos"⟩]⟩)) ∧
    (UpdateTodo sampleLibs updateReq "todos" refClient ownerlessWorld =
        (Outcome.fail ErrorDoesNotExist,
          ⟨ownerlessWorld.store, [Call.GetItem ⟨sampleId, "todos"⟩]⟩)) :=
  ⟨(UpdateTodo_does_not_exist sampleLibs updateReq "todos" refClient emptyWorld
      ⟨emptyWorld.store, [Call.GetItem ⟨sampleId, "todos"⟩]⟩
      { Id := sampleId, Item := "", CreatedBy := "bob", State := 1 } zeroTodo none
      rfl (by decide) rfl rfl).1,
   (UpdateTodo_does_not_exist sampleLibs updateReq "todos" refClient ownerlessWorld
      ⟨ownerlessWorld.store, [Call.GetItem ⟨sampleId, "todos"⟩]⟩
      { Id := sampleId, Item := "", CreatedBy := "bob", State := 1 }
      { Id := sampleId, Item := "buy milk", CreatedBy := "", State := 0 } none
      rfl (by decide) rfl rfl).1⟩

/-- Witness of `UpdateTodo_invalid_data`: a body that does not decode, and a body
without an id. -/
theorem UpdateTodo_invalid_data_witness :
    UpdateTodo sampleLibs brokenReq "todos" refClient storedWorld =
      (Outcome.fail ErrorInvalidData, storedWorld) ∧
    UpdateTodo sampleLibs noIdReq "todos" refClient storedWorld =
      (Outcome.fail ErrorInvalidData, storedWorld) :=
  ⟨UpdateTodo_invalid_data sampleLibs brokenReq "todos" refClient storedWorld (Or.inl rfl),
   UpdateTodo_invalid_data sampleLibs noIdReq "todos" refClient storedWorld
     (Or.inr ⟨{ Id := "", Item := "walk", CreatedBy := "", State := 2 }, rfl, rfl⟩)⟩

/-- Claim C3 fails at this input: the update payload carries the id `sampleId`, the
store fails the lookup, and `UpdateTodo` neither returns a record nor an error: it
panics on the nil record, after the one `GetItem` call. -/
theorem UpdateTodo_panics_on_failed_lookup :
    (UpdateTodo sampleLibs updateReq "todos" refClient failingWorld).1 = Outcome.panicked ∧
    (GetTodo sampleLibs sampleId "todos" refClient failingWorld).1 =
      Outcome.fail ErrorFailedToFetchRecord ∧
    (UpdateTodo sampleLibs updateReq "todos" refClient failingWorld).2.calls =
      [Call.GetItem ⟨sampleId, "todos"⟩] :=
  ⟨rfl, rfl, rfl⟩

/-! ## List, Create and Delete -/

section OtherClaims

variable {σ Item : Type}

theorem queryParam_of_missing (req : APIGatewayProxyRequest) (k : String)
    (h : req.QueryStringParameters.lookup k = none) : queryParam req k = "" := by
  simp [queryParam, h]

/-- Claim C5: when the `createdBy` parameter is missing or empty, or the `state`
parameter is not accepted by `strconv.Atoi`, `ListTodo` fails with "invalid data" and
leaves the store and the call log as they were (no `Scan` call is made). -/
theorem ListTodo_invalid_data (L : Libs Item) (req : APIGatewayProxyRequest) (tbl : String)
    (c : DynamoDBAPI σ Item) (w : World σ Item)
    (h : req.QueryStringParameters.lookup "createdBy" = none ∨
         req.QueryStringParameters.lookup "createdBy" = some "" ∨
         Atoi (queryParam req "state") = none) :
    ListTodo L req tbl c w = (Outcome.fail ErrorInvalidData, w) := by
  have hcond : (len (queryParam req "createdBy") == 0 ||
      (Atoi (queryParam req "state")).isNone) = true := by
    rcases h with h | h | h
    · simp [len_beq_zero_of_empty (queryParam_of_missing req "createdBy" h)]
    · have hc : queryParam req "createdBy" = "" := by simp [queryParam, h]
      simp [len_beq_zero_of_empty hc]
    · simp [h]
  unfold ListTodo
  simp only [hcond, if_true]

/-- With a non-empty `createdBy` and a `state` that parses, `ListTodo` makes exactly one
`Scan` call, filtered on both values; a failed scan gives "failed to fetch record". -/
theorem ListTodo_scans (L : Libs Item) (req : APIGatewayProxyRequest) (tbl : String)
    (c : DynamoDBAPI σ Item) (w : World σ Item) (st : Int)
    (hc : queryParam req "createdBy" ≠ "") (ha : Atoi (queryParam req "state") = some st) :
    (ListTodo L req tbl c w).2.calls =
      w.calls ++ [Call.Scan ⟨tbl, queryParam req "createdBy", st,
        ["id", "item", "createdBy", "state"]⟩] ∧
    (∀ e s, c.Scan ⟨tbl, queryParam req "createdBy", st,
        ["id", "item", "createdBy", "state"]⟩ w.store = (Except.error e, s) →
      (ListTodo L req tbl c w).1 = Outcome.fail ErrorFailedToFetchRecord) := by
  unfold ListTodo
  simp only [ha, len_beq_zero_of_ne hc, Option.isNone_some, Bool.or_self, Bool.false_eq_true,
    if_false, Option.getD_some]
  rcases hs : c.Scan ⟨tbl, queryParam req "createdBy", st,
      ["id", "item", "createdBy", "state"]⟩ w.store with ⟨r, s⟩
  cases r with
  | error e => simp
  | ok items => simp

theorem uuidString_length (rnd : List Nat) : (uuidString rnd).length = 36 := by
  simp [uuidString, hexByte, String.length]

theorem uuidString_ne_empty (rnd : List Nat) : uuidString rnd ≠ "" := by
  intro h
  have hl := uuidString_length rnd
  rw [h] at hl
  exact absurd hl (by decide)

/-- Claim C6, as amended: when the body decodes, the record marshals and the write
succeeds, `CreateTodo` returns the payload's item, `createdBy` and state with the
identifier the generator minted from its random bytes, and makes exactly one `PutItem`
call, of that record.  The minted id has 36 characters, so it is non-empty; it replaces
the payload's id without being compared with it, so it is the payload's id exactly when
the payload supplied that very identifier. -/
theorem CreateTodo_mints_id (L : Libs Item) (rnd : List Nat) (req : APIGatewayProxyRequest)
    (tbl : String) (c : DynamoDBAPI σ Item) (w : World σ Item) (t0 : Todo) (av : Item)
    (u : Unit) (s : σ)
    (hdec : L.jsonUnmarshal req.Body = some t0)
    (hmar : L.MarshalMap { Id := uuidString rnd, Item := t0.Item, CreatedBy := t0.CreatedBy,
                           State := t0.State } = some av)
    (hput : c.PutItem ⟨av, tbl⟩ w.store = (Except.ok u, s)) :
    ∃ r, CreateTodo L (uuidString rnd) req tbl c w =
        (Outcome.returned (some r) none, ⟨s, w.calls ++ [Call.PutItem ⟨av, tbl⟩]⟩) ∧
      r.Item = t0.Item ∧ r.CreatedBy = t0.CreatedBy ∧ r.State = t0.State ∧
      r.Id = uuidString rnd ∧ r.Id.length = 36 ∧ r.Id ≠ "" ∧
      (r.Id = t0.Id ↔ t0.Id = uuidString rnd) ∧ L.MarshalMap r = some av := by
  refine ⟨{ Id := uuidString rnd, Item := t0.Item, CreatedBy := t0.CreatedBy,
            State := t0.State },
    ?_, rfl, rfl, rfl, rfl, uuidString_length rnd, uuidString_ne_empty rnd,
    ⟨fun h => h.symm, fun h => h.symm⟩, hmar⟩
  unfold CreateTodo
  simp [hdec, hmar, hput, Outcome.ok]

/-- The id `CreateTodo` returns does not depend on the id of the payload: two bodies
that decode to records differing only in `Id` give the same outcome. -/
theorem CreateTodo_ignores_payload_id (L : Libs Item) (uuid : String)
    (req req2 : APIGatewayProxyRequest) (tbl : String) (c : DynamoDBAPI σ Item)
    (w : World σ Item) (t0 : Todo) (i : String)
    (hdec : L.jsonUnmarshal req.Body = some t0)
    (hdec2 : L.jsonUnmarshal req2.Body = some { t0 with Id := i }) :
    CreateTodo L uuid req2 tbl c w = CreateTodo L uuid req tbl c w := by
  unfold CreateTodo
  simp [hdec, hdec2]

/-- A failed write makes `CreateTodo` return "could not dynamo put item". -/
theorem CreateTodo_of_put_error (L : Libs Item) (uuid : String) (req : APIGatewayProxyRequest)
    (tbl : String) (c : DynamoDBAPI σ Item) (w : World σ Item) (t0 : Todo) (av : Item)
    (e : String) (s : σ)
    (hdec : L.jsonUnmarshal req.Body = some t0)
    (hmar : L.MarshalMap { Id := uuid, Item := t0.Item, CreatedBy := t0.CreatedBy,
                           State := t0.State } = some av)
    (hput : c.PutItem ⟨av, tbl⟩ w.store = (Except.error e, s)) :
    CreateTodo L uuid req tbl c w =
      (Outcome.fail ErrorCouldNotDynamoPutItem, ⟨s, w.calls ++ [Call.PutItem ⟨av, tbl⟩]⟩) := by
  unfold CreateTodo
  simp [hdec, hmar, hput]

/-- The handler `CreateTodo` never panics and makes at most one call, a `PutItem`. -/
theorem CreateTodo_ne_panicked (L : Libs Item) (uuid : String) (req : APIGatewayProxyRequest)
    (tbl : String) (c : DynamoDBAPI σ Item) (w : World σ Item) :
    (CreateTodo L uuid req tbl c w).1 ≠ Outcome.panicked := by
  unfold CreateTodo
  cases hdec : L.jsonUnmarshal req.Body with
  | none => simp [Outcome.fail]
  | some t0 =>
    cases hmar : L.MarshalMap { t0 with Id := uuid } with
    | none => simp [hmar, Outcome.fail]
    | some av =>
      rcases hput : c.PutItem ⟨av, tbl⟩ w.store with ⟨r, s⟩
      cases r <;> simp [hmar, hput, Outcome.fail, Outcome.ok]

/-- The handler `DeleteTodo` makes exactly one `DeleteItem` call, for the `id` parameter; it
returns "could not delete item" when that call fails and no error otherwise. -/
theorem DeleteTodo_spec (req : APIGatewayProxyRequest) (tbl : String)
    (c : DynamoDBAPI σ Item) (w : World σ Item) :
    (DeleteTodo req tbl c w).2 =
      ⟨(c.DeleteItem ⟨queryParam req "id", tbl⟩ w.store).2,
       w.calls ++ [Call.DeleteItem ⟨queryParam req "id", tbl⟩]⟩ ∧
    ((DeleteTodo req tbl c w).1 = none ↔
      ∃ u, (c.DeleteItem ⟨queryParam req "id", tbl⟩ w.store).1 = Except.ok u) ∧
    ((DeleteTodo req tbl c w).1 = some ErrorCouldNotDeleteItem ↔
      ∃ e, (c.DeleteItem ⟨queryParam req "id", tbl⟩ w.store).1 = Except.error e) := by
  unfold DeleteTodo
  rcases hd : c.DeleteItem ⟨queryParam req "id", tbl⟩ w.store with ⟨r, s⟩
  cases r <;> simp [hd]

end OtherClaims

/-- Witness of `ListTodo_invalid_data`: a request without `createdBy`, one with an empty
`createdBy`, and one whose `state` is not an integer. -/
theorem ListTodo_invalid_data_witness :
    ListTodo sampleLibs ⟨[("state", "1")], ""⟩ "todos" refClient storedWorld =
      (Outcome.fail ErrorInvalidData, storedWorld) ∧
    ListTodo sampleLibs ⟨[("createdBy", ""), ("state", "1")], ""⟩ "todos" refClient storedWorld =
      (Outcome.fail ErrorInvalidData, storedWorld) ∧
    ListTodo sampleLibs ⟨[("createdBy", "alice"), ("state", "done")], ""⟩ "todos" refClient
      storedWorld = (Outcome.fail ErrorInvalidData, storedWorld) :=
  ⟨ListTodo_invalid_data sampleLibs ⟨[("state", "1")], ""⟩ "todos" refClient storedWorld
     (Or.inl rfl),
   ListTodo_invalid_data sampleLibs ⟨[("createdBy", ""), ("state", "1")], ""⟩ "todos" refClient
     storedWorld (Or.inr (Or.inl rfl)),
   ListTodo_invalid_data sampleLibs ⟨[("createdBy", "alice"), ("state", "done")], ""⟩ "todos"
     refClient storedWorld (Or.inr (Or.inr rfl))⟩

/-- Witness of `CreateTodo_mints_id`: a create request that brings the id "my-own-id",
on the empty store; the record comes back under the minted id. -/
theorem CreateTodo_mints_id_witness :
    ∃ r, CreateTodo sampleLibs (uuidString sampleRandom) createWithIdReq "todos" refClient
          emptyWorld =
        (Outcome.returned (some r) none,
          ⟨storedWorld.store, [] ++ [Call.PutItem ⟨refMarshalMap createdTodo, "todos"⟩]⟩) ∧
      r.Item = "buy milk" ∧ r.CreatedBy = "alice" ∧ r.State = 0 ∧
      r.Id = uuidString sampleRandom ∧ r.Id.length = 36 ∧ r.Id ≠ "" ∧
      (r.Id = "my-own-id" ↔ "my-own-id" = uuidString sampleRandom) ∧
      sampleLibs.MarshalMap r = some (refMarshalMap createdTodo) :=
  CreateTodo_mints_id sampleLibs sampleRandom createWithIdReq "todos" refClient emptyWorld
    { Id := "my-own-id", Item := "buy milk", CreatedBy := "alice", State := 0 }
    (refMarshalMap createdTodo) () storedWorld.store rfl rfl rfl

/-- Claim C6 fails as stated at this input: the create payload supplies the identifier
`sampleId`, the generator mints `sampleId` from the bytes `sampleRandom`, the write
succeeds, and the id `CreateTodo` returns is the id the payload supplied. -/
theorem CreateTodo_returns_supplied_id :
    uuidString sampleRandom = sampleId ∧
    ∃ t0 r, sampleLibs.jsonUnmarshal createSameIdReq.Body = some t0 ∧
      (CreateTodo sampleLibs (uuidString sampleRandom) createSameIdReq "todos" refClient
        emptyWorld).1 = Outcome.returned (some r) none ∧
      r.Id = t0.Id :=
  ⟨rfl, { Id := sampleId, Item := "buy milk", CreatedBy := "alice", State := 0 },
    { Id := sampleId, Item := "buy milk", CreatedBy := "alice", State := 0 }, rfl, rfl, rfl⟩

/-! ## The reference store: delete then get, the key invariant, create then update -/

section KVFacts
variable {Item : Type}

theorem KV.lookup_drop_self (rows : List ((String × String) × Item)) (tbl k : String) :
    (KV.drop rows tbl k).lookup (tbl, k) = none := by
  induction rows with
  | nil => rfl
  | cons r rest ih =>
    unfold KV.drop at ih ⊢
    by_cases h : r.1 = (tbl, k)
    · have hb : ¬ ((!(r.1 == (tbl, k))) = true) := by simp [h]
      rw [List.filter_cons, if_neg hb]
      exact ih
    · have hb : (!(r.1 == (tbl, k))) = true := by simp [h]
      have h2 : ((tbl, k) == r.1) = false := by
        simp only [beq_eq_false_iff_ne, ne_eq]
        exact fun h3 => h h3.symm
      rw [List.filter_cons, if_pos hb]
      obtain ⟨rk, ri⟩ := r
      rw [List.lookup_cons, h2]
      exact ih

theorem KV.lookup_drop_of_ne (rows : List ((String × String) × Item)) (tbl k tbl2 k2 : String)
    (hne : (tbl2, k2) ≠ (tbl, k)) :
    (KV.drop rows tbl k).lookup (tbl2, k2) = rows.lookup (tbl2, k2) := by
  induction rows with
  | nil => rfl
  | cons r rest ih =>
    unfold KV.drop at ih ⊢
    obtain ⟨rk, ri⟩ := r
    by_cases h : rk = (tbl, k)
    · have hb : ¬ ((!(rk == (tbl, k))) = true) := by simp [h]
      have h2 : ((tbl2, k2) == rk) = false := by
        simp only [beq_eq_false_iff_ne, ne_eq]
        exact fun h3 => hne (h3.trans h)
      rw [List.filter_cons, if_neg hb, List.lookup_cons, h2]
      exact ih
    · have hb : (!(rk == (tbl, k))) = true := by simp [h]
      rw [List.filter_cons, if_pos hb, List.lookup_cons, List.lookup_cons, ih]

theorem KV.mem_drop (rows : List ((String × String) × Item)) (tbl k : String)
    (r : (String × String) × Item) (h : r ∈ KV.drop rows tbl k) : r ∈ rows := by
  unfold KV.drop at h
  exact List.mem_of_mem_filter h

theorem KV.next_rows (s : KV Item) : s.next.2.rows = s.rows := by
  unfold KV.next
  cases s.faults <;> rfl

theorem KV.next_of_nofault (s : KV Item) (h : s.faults = []) : s.next = (false, s) := by
  unfold KV.next
  rw [h]

theorem kv_GetItem_of_answer (keyOf : Item → String) (sel : ScanInput → Item → Bool)
    (input : GetItemInput) (s : KV Item) (h : s.next.1 = false) :
    (kvClient keyOf sel).GetItem input s =
      (Except.ok (s.find input.TableName input.Key), s.next.2) := by
  simp only [kvClient]
  rcases hn : s.next with ⟨b, s1⟩
  rw [hn] at h
  simp only at h
  subst h
  simp [KV.find, ← KV.next_rows s, hn]

theorem kv_GetItem_store (keyOf : Item → String) (sel : ScanInput → Item → Bool)
    (input : GetItemInput) (s : KV Item) :
    ((kvClient keyOf sel).GetItem input s).2 = s.next.2 := by
  simp only [kvClient]
  rcases hn : s.next with ⟨b, s1⟩
  cases b <;> rfl

theorem kv_PutItem_of_answer (keyOf : Item → String) (sel : ScanInput → Item → Bool)
    (input : PutItemInput Item) (s : KV Item) (h : s.next.1 = false) :
    (kvClient keyOf sel).PutItem input s =
      (Except.ok (),
        { rows := ((input.TableName, keyOf input.Item), input.Item) ::
            KV.drop s.rows input.TableName (keyOf input.Item),
          faults := s.next.2.faults }) := by
  simp only [kvClient]
  rcases hn : s.next with ⟨b, s1⟩
  rw [hn] at h
  simp only at h
  subst h
  simp [← KV.next_rows s, hn]

theorem kv_PutItem_keyed (keyOf : Item → String) (sel : ScanInput → Item → Bool)
    (input : PutItemInput Item) (s : KV Item) (hk : keyOf input.Item ≠ "")
    (hinv : KV.keyed keyOf s) :
    KV.keyed keyOf ((kvClient keyOf sel).PutItem input s).2 := by
  simp only [kvClient]
  rcases hn : s.next with ⟨b, s1⟩
  have hr : s1.rows = s.rows := by rw [← KV.next_rows s, hn]
  cases b with
  | true =>
    intro r hmem
    exact hinv r (hr ▸ hmem)
  | false =>
    intro r hmem
    simp only [List.mem_cons] at hmem
    rcases hmem with rfl | hmem
    · exact ⟨rfl, hk⟩
    · exact hinv r (hr ▸ KV.mem_drop _ _ _ r hmem)

theorem kv_DeleteItem_keyed (keyOf : Item → String) (sel : ScanInput → Item → Bool)
    (input : DeleteItemInput) (s : KV Item) (hinv : KV.keyed keyOf s) :
    KV.keyed keyOf ((kvClient keyOf sel).DeleteItem input s).2 := by
  simp only [kvClient]
  rcases hn : s.next with ⟨b, s1⟩
  have hr : s1.rows = s.rows := by rw [← KV.next_rows s, hn]
  cases b with
  | true =>
    intro r hmem
    exact hinv r (hr ▸ hmem)
  | false =>
    intro r hmem
    exact hinv r (hr ▸ KV.mem_drop _ _ _ r hmem)

theorem kv_next_keyed (keyOf : Item → String) (s : KV Item) (hinv : KV.keyed keyOf s) :
    KV.keyed keyOf s.next.2 := by
  intro r hmem
  rw [KV.next_rows] at hmem
  exact hinv r hmem

theorem kv_DeleteItem_of_ok (keyOf : Item → String) (sel : ScanInput → Item → Bool)
    (input : DeleteItemInput) (s : KV Item) (u : Unit) (s2 : KV Item)
    (h : (kvClient keyOf sel).DeleteItem input s = (Except.ok u, s2)) :
    s2.rows = KV.drop s.rows input.TableName input.Key := by
  simp only [kvClient] at h
  rcases hn : s.next with ⟨b, s1⟩
  have hr : s1.rows = s.rows := by rw [← KV.next_rows s, hn]
  rw [hn] at h
  cases b with
  | true => simp at h
  | false =>
    simp only [Prod.mk.injEq] at h
    rw [← h.2, ← hr]

theorem kv_find_after_put (rows : List ((String × String) × Item)) (tbl k : String) (av : Item)
    (fs : List Bool) :
    KV.find { rows := ((tbl, k), av) :: KV.drop rows tbl k, faults := fs } tbl k = some av := by
  simp [KV.find, List.lookup_cons]

/-- On a store that answers, `GetTodo` returns the decoded stored item and leaves the rows
as they are. -/
theorem kv_GetTodo_of_stored (L : Libs Item) (keyOf : Item → String)
    (sel : ScanInput → Item → Bool) (id tbl : String) (w : World (KV Item) Item)
    (t : Todo) (hf : w.store.faults = [])
    (hu : L.UnmarshalMap (w.store.find tbl id) = some t) :
    GetTodo L id tbl (kvClient keyOf sel) w =
      (Outcome.ok t, ⟨w.store, w.calls ++ [Call.GetItem ⟨id, tbl⟩]⟩) := by
  have hn := KV.next_of_nofault w.store hf
  have hg := kv_GetItem_of_answer keyOf sel ⟨id, tbl⟩ w.store (by rw [hn])
  rw [hn] at hg
  exact GetTodo_of_ok L id tbl (kvClient keyOf sel) w _ _ t hg hu

/-- Claim C7: on the reference store, once `DeleteTodo` has succeeded for an id, or
when the id is not in the table, a lookup of that id that the store answers makes
`GetTodo` return the zero-valued record and no error.  The decoder leaves the zero
value when there is no item. -/
theorem GetTodo_after_DeleteTodo (L : Libs Item) (keyOf : Item → String)
    (sel : ScanInput → Item → Bool) (req : APIGatewayProxyRequest) (tbl id : String)
    (w w1 : World (KV Item) Item)
    (hnil : L.UnmarshalMap none = some zeroTodo)
    (hstate : (queryParam req "id" = id ∧
        DeleteTodo req tbl (kvClient keyOf sel) w = (none, w1)) ∨
      w1.store.find tbl id = none)
    (hans : w1.store.next.1 = false) :
    (GetTodo L id tbl (kvClient keyOf sel) w1).1 =
      Outcome.returned (some { Id := "", Item := "", CreatedBy := "", State := 0 }) none := by
  have hfind : w1.store.find tbl id = none := by
    rcases hstate with ⟨hid, hdel⟩ | h
    · unfold DeleteTodo at hdel
      rcases hd : (kvClient keyOf sel).DeleteItem ⟨queryParam req "id", tbl⟩ w.store with ⟨r, s2⟩
      simp only [hd] at hdel
      cases r with
      | error e => simp at hdel
      | ok u =>
        simp only [Prod.mk.injEq, true_and] at hdel
        have hrows := kv_DeleteItem_of_ok keyOf sel _ w.store u s2 hd
        rw [← hdel]
        simp only [KV.find, hrows, hid]
        exact KV.lookup_drop_self _ _ _
    · exact h
  have hg := kv_GetItem_of_answer keyOf sel ⟨id, tbl⟩ w1.store hans
  simp only [hfind] at hg
  rw [GetTodo_of_ok L id tbl (kvClient keyOf sel) w1 none _ zeroTodo hg hnil]
  rfl

theorem CreateTodo_keyed (L : Libs Item) (keyOf : Item → String)
    (sel : ScanInput → Item → Bool) (uuid : String) (req : APIGatewayProxyRequest)
    (tbl : String) (w : World (KV Item) Item)
    (hkey : ∀ t av, L.MarshalMap t = some av → t.Id ≠ "" → keyOf av = t.Id)
    (hinv : KV.keyed keyOf w.store) (huuid : uuid ≠ "") :
    KV.keyed keyOf (CreateTodo L uuid req tbl (kvClient keyOf sel) w).2.store := by
  unfold CreateTodo
  cases hdec : L.jsonUnmarshal req.Body with
  | none => simpa using hinv
  | some t0 =>
    cases hmar : L.MarshalMap { t0 with Id := uuid } with
    | none => simpa [hmar] using hinv
    | some av =>
      have hk : keyOf av ≠ "" := by
        rw [hkey _ av hmar huuid]; exact huuid
      have hput := kv_PutItem_keyed keyOf sel ⟨av, tbl⟩ w.store hk hinv
      rcases hp : (kvClient keyOf sel).PutItem ⟨av, tbl⟩ w.store with ⟨r, s⟩
      rw [hp] at hput
      cases r <;> simpa [hmar, hp] using hput

theorem UpdateTodo_keyed (L : Libs Item) (keyOf : Item → String)
    (sel : ScanInput → Item → Bool) (req : APIGatewayProxyRequest)
    (tbl : String) (w : World (KV Item) Item)
    (hkey : ∀ t av, L.MarshalMap t = some av → t.Id ≠ "" → keyOf av = t.Id)
    (hinv : KV.keyed keyOf w.store) :
    KV.keyed keyOf (UpdateTodo L req tbl (kvClient keyOf sel) w).2.store := by
  cases hdec : L.jsonUnmarshal req.Body with
  | none =>
    rw [UpdateTodo_of_invalid L req tbl _ w (Or.inl hdec)]
    exact hinv
  | some t0 =>
    by_cases hid : t0.Id = ""
    · rw [UpdateTodo_of_invalid L req tbl _ w (Or.inr ⟨t0, hdec, hid⟩)]
      exact hinv
    · have hw := GetTodo_calls L t0.Id tbl (kvClient keyOf sel) w
      rcases hget : GetTodo L t0.Id tbl (kvClient keyOf sel) w with ⟨o, w1⟩
      rw [hget] at hw
      have hinv1 : KV.keyed keyOf w1.store := by
        have hs : w1.store = w.store.next.2 := by
          have := congrArg World.store hw
          simpa [kv_GetItem_store] using this
        rw [hs]
        exact kv_next_keyed keyOf w.store hinv
      cases o with
      | panicked =>
        exact absurd (congrArg Prod.fst hget) (GetTodo_ne_panicked L t0.Id tbl _ w)
      | returned curTodo e =>
        cases curTodo with
        | none =>
          have : UpdateTodo L req tbl (kvClient keyOf sel) w = (Outcome.panicked, w1) := by
            unfold UpdateTodo
            simp [hdec, hget, len_beq_zero_of_ne hid]
          rw [this]
          exact hinv1
        | some cur =>
          by_cases hcb : cur.CreatedBy = ""
          · rw [UpdateTodo_of_ownerless L req tbl _ w w1 t0 cur e hdec hid hget hcb]
            exact hinv1
          · rw [UpdateTodo_of_fetched L req tbl _ w w1 t0 cur e hdec hid hget hcb]
            cases hmar : L.MarshalMap { Id := t0.Id,
                                        Item := if t0.Item = "" then cur.Item else t0.Item,
                                        CreatedBy := cur.CreatedBy, State := t0.State } with
            | none => exact hinv1
            | some av =>
              have hk : keyOf av ≠ "" := by
                rw [hkey _ av hmar hid]; exact hid
              have hput := kv_PutItem_keyed keyOf sel ⟨av, tbl⟩ w1.store hk hinv1
              rcases hp : (kvClient keyOf sel).PutItem ⟨av, tbl⟩ w1.store with ⟨r, s⟩
              rw [hp] at hput
              cases r <;> simpa [hp] using hput

theorem DeleteTodo_keyed (keyOf : Item → String)
    (sel : ScanInput → Item → Bool) (req : APIGatewayProxyRequest)
    (tbl : String) (w : World (KV Item) Item)
    (hinv : KV.keyed keyOf w.store) :
    KV.keyed keyOf (DeleteTodo req tbl (kvClient keyOf sel) w).2.store := by
  have h := (DeleteTodo_spec req tbl (kvClient keyOf sel) w).1
  rw [h]
  exact kv_DeleteItem_keyed keyOf sel _ w.store hinv

/-- Claim C9: on the reference store, if every row carries a non-empty id equal to its
key, the same holds after `CreateTodo`, after `UpdateTodo` and after `DeleteTodo`, for
every request and whatever the handler returns, given that the identifier generator
returns a non-empty string (and that the id attribute of a marshalled record is the
record's `Id`). -/
theorem handlers_keep_keyed (L : Libs Item) (keyOf : Item → String)
    (sel : ScanInput → Item → Bool) (uuid : String) (req : APIGatewayProxyRequest)
    (tbl : String) (w : World (KV Item) Item)
    (hkey : ∀ t av, L.MarshalMap t = some av → t.Id ≠ "" → keyOf av = t.Id)
    (hinv : KV.keyed keyOf w.store) (huuid : uuid ≠ "") :
    KV.keyed keyOf (CreateTodo L uuid req tbl (kvClient keyOf sel) w).2.store ∧
    KV.keyed keyOf (UpdateTodo L req tbl (kvClient keyOf sel) w).2.store ∧
    KV.keyed keyOf (DeleteTodo req tbl (kvClient keyOf sel) w).2.store :=
  ⟨CreateTodo_keyed L keyOf sel uuid req tbl w hkey hinv huuid,
   UpdateTodo_keyed L keyOf sel req tbl w hkey hinv,
   DeleteTodo_keyed keyOf sel req tbl w hinv⟩

/-- On a store that answers, `CreateTodo` stores the marshalled record under the minted id. -/
theorem kv_CreateTodo (L : Libs Item) (keyOf : Item → String)
    (sel : ScanInput → Item → Bool) (uuid : String) (req : APIGatewayProxyRequest)
    (tbl : String) (w : World (KV Item) Item) (t1 : Todo) (av : Item)
    (hkey : ∀ t av, L.MarshalMap t = some av → t.Id ≠ "" → keyOf av = t.Id)
    (hf : w.store.faults = [])
    (hdec : L.jsonUnmarshal req.Body = some t1) (huuid : uuid ≠ "")
    (hmar : L.MarshalMap { Id := uuid, Item := t1.Item, CreatedBy := t1.CreatedBy,
                           State := t1.State } = some av) :
    CreateTodo L uuid req tbl (kvClient keyOf sel) w =
      (Outcome.ok { Id := uuid, Item := t1.Item, CreatedBy := t1.CreatedBy, State := t1.State },
       ⟨{ rows := ((tbl, uuid), av) :: KV.drop w.store.rows tbl uuid, faults := [] },
        w.calls ++ [Call.PutItem ⟨av, tbl⟩]⟩) := by
  have hn := KV.next_of_nofault w.store hf
  have hp := kv_PutItem_of_answer keyOf sel ⟨av, tbl⟩ w.store (by rw [hn])
  rw [hn] at hp
  simp only [hkey _ av hmar huuid, hf] at hp
  unfold CreateTodo
  simp [hdec, hmar, hp]

/-- On a store that answers and holds, under the payload's id, an item that decodes to a
record with a non-empty `createdBy`, `UpdateTodo` returns the merged record and stores it. -/
theorem kv_UpdateTodo (L : Libs Item) (keyOf : Item → String)
    (sel : ScanInput → Item → Bool) (req : APIGatewayProxyRequest)
    (tbl : String) (w : World (KV Item) Item) (t2 cur : Todo) (av : Item)
    (hkey : ∀ t av, L.MarshalMap t = some av → t.Id ≠ "" → keyOf av = t.Id)
    (hf : w.store.faults = [])
    (hdec : L.jsonUnmarshal req.Body = some t2) (hid : t2.Id ≠ "")
    (hcur : L.UnmarshalMap (w.store.find tbl t2.Id) = some cur) (hcb : cur.CreatedBy ≠ "")
    (hmar : L.MarshalMap { Id := t2.Id, Item := if t2.Item = "" then cur.Item else t2.Item,
                           CreatedBy := cur.CreatedBy, State := t2.State } = some av) :
    UpdateTodo L req tbl (kvClient keyOf sel) w =
      (Outcome.ok { Id := t2.Id, Item := if t2.Item = "" then cur.Item else t2.Item,
                    CreatedBy := cur.CreatedBy, State := t2.State },
       ⟨{ rows := ((tbl, t2.Id), av) :: KV.drop w.store.rows tbl t2.Id, faults := [] },
        w.calls ++ [Call.GetItem ⟨t2.Id, tbl⟩, Call.PutItem ⟨av, tbl⟩]⟩) := by
  have hget := kv_GetTodo_of_stored L keyOf sel t2.Id tbl w cur hf hcur
  have hn := KV.next_of_nofault w.store hf
  have hp := kv_PutItem_of_answer keyOf sel ⟨av, tbl⟩ w.store (by rw [hn])
  rw [hn] at hp
  simp only [hkey _ av hmar hid, hf] at hp
  rw [UpdateTodo_of_fetched L req tbl _ w _ t2 cur none hdec hid hget hcb]
  simp [hmar, hp]

/-- Claim C10: on the reference store answering every call, `CreateTodo` of a payload
with a non-empty `createdBy`, then `UpdateTodo` with a payload carrying the minted id:
the update succeeds and returns the minted id, the payload's item if non-empty and the
created item otherwise, the created `createdBy` and the payload's state; `GetTodo` of the
minted id then returns that same record. -/
theorem create_update_get (L : Libs Item) (keyOf : Item → String)
    (sel : ScanInput → Item → Bool) (uuid : String) (req1 req2 : APIGatewayProxyRequest)
    (tbl : String) (w : World (KV Item) Item) (t1 t2 : Todo)
    (hmar : ∀ t, ∃ av, L.MarshalMap t = some av)
    (hround : ∀ t av, L.MarshalMap t = some av → L.UnmarshalMap (some av) = some t)
    (hkey : ∀ t av, L.MarshalMap t = some av → t.Id ≠ "" → keyOf av = t.Id)
    (hf : w.store.faults = [])
    (hdec1 : L.jsonUnmarshal req1.Body = some t1) (hcb : t1.CreatedBy ≠ "")
    (huuid : uuid ≠ "")
    (hdec2 : L.jsonUnmarshal req2.Body = some t2) (hid2 : t2.Id = uuid) :
    (CreateTodo L uuid req1 tbl (kvClient keyOf sel) w).1 =
      Outcome.ok { Id := uuid, Item := t1.Item, CreatedBy := t1.CreatedBy, State := t1.State } ∧
    (UpdateTodo L req2 tbl (kvClient keyOf sel)
        (CreateTodo L uuid req1 tbl (kvClient keyOf sel) w).2).1 =
      Outcome.ok { Id := uuid, Item := if t2.Item = "" then t1.Item else t2.Item,
                   CreatedBy := t1.CreatedBy, State := t2.State } ∧
    (GetTodo L uuid tbl (kvClient keyOf sel)
        (UpdateTodo L req2 tbl (kvClient keyOf sel)
          (CreateTodo L uuid req1 tbl (kvClient keyOf sel) w).2).2).1 =
      Outcome.ok { Id := uuid, Item := if t2.Item = "" then t1.Item else t2.Item,
                   CreatedBy := t1.CreatedBy, State := t2.State } := by
  subst hid2
  obtain ⟨av1, hav1⟩ := hmar { Id := t2.Id, Item := t1.Item, CreatedBy := t1.CreatedBy,
                               State := t1.State }
  obtain ⟨av2, hav2⟩ := hmar { Id := t2.Id, Item := if t2.Item = "" then t1.Item else t2.Item,
                               CreatedBy := t1.CreatedBy, State := t2.State }
  have hc := kv_CreateTodo L keyOf sel t2.Id req1 tbl w t1 av1 hkey hf hdec1 huuid hav1
  rw [hc]
  have hu := kv_UpdateTodo L keyOf sel req2 tbl
    ⟨{ rows := ((tbl, t2.Id), av1) :: KV.drop w.store.rows tbl t2.Id, faults := [] },
     w.calls ++ [Call.PutItem ⟨av1, tbl⟩]⟩ t2
    { Id := t2.Id, Item := t1.Item, CreatedBy := t1.CreatedBy, State := t1.State } av2
    hkey rfl hdec2 huuid
    (by rw [kv_find_after_put]; exact hround _ av1 hav1) hcb hav2
  rw [hu]
  refine ⟨rfl, rfl, ?_⟩
  rw [kv_GetTodo_of_stored L keyOf sel t2.Id tbl _ _ rfl
    (by rw [kv_find_after_put]; exact hround _ av2 hav2)]

end KVFacts

/-! ## The reference codec obeys the laws assumed of the library -/

theorem decodeString_encodeString (s : String) : decodeString (some (encodeString s)) = some s := by
  unfold encodeString
  by_cases h : s = ""
  · simp [h, decodeString]
  · simp [h, decodeString]

theorem refUnmarshalMap_refMarshalMap (t : Todo) :
    refUnmarshalMap (some (refMarshalMap t)) = some t := by
  have h1 : (refMarshalMap t).lookup "id" = some (encodeString t.Id) := by
    simp [refMarshalMap, List.lookup_cons]
  have h2 : (refMarshalMap t).lookup "item" = some (encodeString t.Item) := by
    simp [refMarshalMap, List.lookup_cons]
  have h3 : (refMarshalMap t).lookup "createdBy" = some (encodeString t.CreatedBy) := by
    simp [refMarshalMap, List.lookup_cons]
  have h4 : (refMarshalMap t).lookup "state" = some (AttributeValue.N t.State) := by
    simp [refMarshalMap, List.lookup_cons]
  simp only [refUnmarshalMap, h1, h2, h3, h4, decodeString_encodeString, decodeInt]

theorem refKeyOf_refMarshalMap (t : Todo) (h : t.Id ≠ "") : refKeyOf (refMarshalMap t) = t.Id := by
  have h1 : (refMarshalMap t).lookup "id" = some (encodeString t.Id) := by
    simp [refMarshalMap, List.lookup_cons]
  simp [refKeyOf, h1, encodeString, h]

theorem refLibs_marshal_total (bodies : List (String × Todo)) (t : Todo) :
    ∃ av, (refLibs bodies).MarshalMap t = some av := ⟨refMarshalMap t, rfl⟩

theorem refLibs_roundtrip (bodies : List (String × Todo)) (t : Todo) (av : AttrMap)
    (h : (refLibs bodies).MarshalMap t = some av) :
    (refLibs bodies).UnmarshalMap (some av) = some t := by
  simp only [refLibs, Option.some.injEq] at h
  subst h
  exact refUnmarshalMap_refMarshalMap t

theorem refLibs_key (bodies : List (String × Todo)) (t : Todo) (av : AttrMap)
    (h : (refLibs bodies).MarshalMap t = some av) (hid : t.Id ≠ "") : refKeyOf av = t.Id := by
  simp only [refLibs, Option.some.injEq] at h
  subst h
  exact refKeyOf_refMarshalMap t hid

/-- Witness of `GetTodo_after_DeleteTodo`: the stored record is deleted and looked up
again; and an id is looked up that the store never held. -/
theorem GetTodo_after_DeleteTodo_witness :
    (DeleteTodo deleteReq "todos" refClient storedWorld).1 = none ∧
    (GetTodo sampleLibs sampleId "todos" refClient
        (DeleteTodo deleteReq "todos" refClient storedWorld).2).1 =
      Outcome.returned (some { Id := "", Item := "", CreatedBy := "", State := 0 }) none ∧
    (GetTodo sampleLibs "no-such-id" "todos" refClient storedWorld).1 =
      Outcome.returned (some { Id := "", Item := "", CreatedBy := "", State := 0 }) none :=
  ⟨rfl,
   GetTodo_after_DeleteTodo sampleLibs refKeyOf refSel deleteReq "todos" sampleId storedWorld
     (DeleteTodo deleteReq "todos" refClient storedWorld).2 rfl (Or.inl ⟨rfl, rfl⟩) rfl,
   GetTodo_after_DeleteTodo sampleLibs refKeyOf refSel deleteReq "todos" "no-such-id" storedWorld
     storedWorld rfl (Or.inr rfl) rfl⟩

theorem storedWorld_keyed : KV.keyed refKeyOf storedWorld.store := by
  intro r hr
  simp only [storedWorld, List.mem_singleton] at hr
  subst hr
  exact ⟨rfl, by decide⟩

/-- Witness of `handlers_keep_keyed`: the three handlers on the store holding the
created record. -/
theorem handlers_keep_keyed_witness :
    KV.keyed refKeyOf storedWorld.store ∧
    KV.keyed refKeyOf
      (CreateTodo sampleLibs "id-2" createReq "todos" refClient storedWorld).2.store ∧
    KV.keyed refKeyOf (UpdateTodo sampleLibs updateReq "todos" refClient storedWorld).2.store ∧
    KV.keyed refKeyOf (DeleteTodo deleteReq "todos" refClient storedWorld).2.store :=
  ⟨storedWorld_keyed,
   (handlers_keep_keyed sampleLibs refKeyOf refSel "id-2" createReq "todos" storedWorld
      (refLibs_key _) storedWorld_keyed (by decide)).1,
   (handlers_keep_keyed sampleLibs refKeyOf refSel "id-2" updateReq "todos" storedWorld
      (refLibs_key _) storedWorld_keyed (by decide)).2.1,
   (handlers_keep_keyed sampleLibs refKeyOf refSel "id-2" deleteReq "todos" storedWorld
      (refLibs_key _) storedWorld_keyed (by decide)).2.2⟩

/-- Witness of `create_update_get`: the scenario of the specification, "buy milk" created
by "alice", then updated with an empty item, the owner "bob" and state 1. -/
theorem create_update_get_witness :
    (CreateTodo sampleLibs sampleId createReq "todos" refClient emptyWorld).1 =
      Outcome.ok { Id := sampleId, Item := "buy milk", CreatedBy := "alice", State := 0 } ∧
    (UpdateTodo sampleLibs updateReq "todos" refClient
        (CreateTodo sampleLibs sampleId createReq "todos" refClient emptyWorld).2).1 =
      Outcome.ok { Id := sampleId, Item := if ("" : String) = "" then "buy milk" else "",
                   CreatedBy := "alice", State := 1 } ∧
    (GetTodo sampleLibs sampleId "todos" refClient
        (UpdateTodo sampleLibs updateReq "todos" refClient
          (CreateTodo sampleLibs sampleId createReq "todos" refClient emptyWorld).2).2).1 =
      Outcome.ok { Id := sampleId, Item := if ("" : String) = "" then "buy milk" else "",
                   CreatedBy := "alice", State := 1 } :=
  create_update_get sampleLibs refKeyOf refSel sampleId createReq updateReq "todos" emptyWorld
    { Id := "", Item := "buy milk", CreatedBy := "alice", State := 0 }
    { Id := sampleId, Item := "", CreatedBy := "bob", State := 1 }
    (refLibs_marshal_total _) (refLibs_roundtrip _) (refLibs_key _) rfl rfl (by decide)
    (by decide) rfl rfl

end TodoLambda
